import Mathlib

/-
Shallow embedding of the declarative diff-and-converge engine of
cluster-api-provider-azure, covering:
  - azure/services/securitygroups/spec.go : NSGSpec.Parameters, ruleExists
  - the virtual-machine Parameters error paths (implementation not in the
    source tree; modelled from the spec and its test expectations)
  - the capacity/surge and no-op logic of ScaleSetSpec.existingParameters
    (scalesets package, bundled after the mock client in
    azure/services/virtualmachines/mock_virtualmachines/client_mock.go)

Go pointer-typed strings (*string) are embedded as Option String; the SDK
helper ptr.Deref(p, "") becomes ptrDeref below.  Go maps that are only
consulted for key membership (LastAppliedSecurityRules, newAnnotation) are
embedded as lists of their keys.
-/

/-- strings.EqualFold: case-insensitive string equality, embedded by
lower-casing the character sequences. -/
def eqFold (a b : String) : Bool := a.data.map Char.toLower == b.data.map Char.toLower

/-- ptr.Deref(p, "") on a *string: the value if non-nil, else the empty string. -/
def ptrDeref (s : Option String) : String := s.getD ""

/-- network.SecurityRuleProtocol (values Tcp, Udp, Icmp, Asterisk). -/
inductive Protocol where
  | Tcp
  | Udp
  | Icmp
  | Asterisk
deriving DecidableEq, Repr

/-- network.SecurityRuleAccess (values Allow, Deny). -/
inductive Access where
  | Allow
  | Deny
deriving DecidableEq, Repr

/-- network.SecurityRuleDirection (values Inbound, Outbound). -/
inductive Direction where
  | Inbound
  | Outbound
deriving DecidableEq, Repr

/-- network.SecurityRule, the SDK-side rule.  The fields sourceAddress and
destinationAddress embed the SDK fields SourceAddressPrefix and
DestinationAddressPrefix.  etag and id are filled in by the provider. -/
structure SecurityRule where
  name : Option String
  description : Option String
  protocol : Protocol
  access : Access
  direction : Direction
  priority : Option Int
  sourcePortRange : Option String
  sourceAddress : Option String
  destinationPortRange : Option String
  destinationAddress : Option String
  etag : Option String
  id : Option String
deriving DecidableEq, Repr

/-- network.SecurityGroup: location, rules, etag, tags (tags as a key-value list). -/
structure SecurityGroup where
  location : Option String
  securityRules : List SecurityRule
  etag : Option String
  tags : List (String × String)
deriving DecidableEq, Repr

/-- infrav1.SecurityRule, the spec-side rule (fields as used by the tests:
Name, Description, Priority, Protocol, Direction, Source, SourcePorts,
Destination, DestinationPorts). -/
structure SpecSecurityRule where
  name : String
  description : String
  priority : Int
  protocol : Protocol
  direction : Direction
  source : Option String
  sourcePorts : Option String
  destination : Option String
  destinationPorts : Option String
deriving DecidableEq, Repr

/-- Modelled from the spec: converters.SecurityRuleToSDK is not under src/
(only its call sites and tests are).  It maps each spec-side field to the
corresponding SDK field verbatim; the SDK access decision is fixed to Allow
since the spec-side rule carries no access field, and the provider-filled
etag and id start out nil. -/
def SecurityRuleToSDK (rule : SpecSecurityRule) : SecurityRule :=
  { name := some rule.name
    description := some rule.description
    protocol := rule.protocol
    access := Access.Allow
    direction := rule.direction
    priority := some rule.priority
    sourcePortRange := rule.sourcePorts
    sourceAddress := rule.source
    destinationPortRange := rule.destinationPorts
    destinationAddress := rule.destination
    etag := none
    id := none }

/-- Modelled from the spec: infrav1.Build and converters.TagsToMap are not
under src/.  Per the spec and the test expectations, the tag map holds the
cluster-ownership tag (key derived from the cluster name, value owned), the
Name tag, and the additional tags. -/
def buildTags (clusterName name : String) (additional : List (String × String)) : List (String × String) :=
  additional ++
    [(String.append "sigs.k8s.io_cluster-api-provider-azure_cluster_" clusterName, "owned"),
     ("Name", name)]

/-- NSGSpec (azure/services/securitygroups/spec.go).  LastAppliedSecurityRules
is a map consulted only for key membership, embedded as its key list. -/
structure NSGSpec where
  name : String
  securityRules : List SpecSecurityRule
  location : String
  clusterName : String
  resourceGroup : String
  additionalTags : List (String × String)
  lastAppliedSecurityRules : List String
deriving DecidableEq, Repr

/-- ruleExists (spec.go:122-143): the loop continues past a candidate match on
a name mismatch, on a destination-port-range mismatch, when the existing rule
has none of protocol Tcp / access Allow / direction Inbound, and when none of
the existing rule's source port range, source address, destination address is
the wildcard; otherwise it returns true. -/
def ruleExists (rules : List SecurityRule) (rule : SecurityRule) : Bool :=
  rules.any fun existingRule =>
    eqFold (ptrDeref existingRule.name) (ptrDeref rule.name)
    && eqFold (ptrDeref existingRule.destinationPortRange) (ptrDeref rule.destinationPortRange)
    && !(!(existingRule.protocol == Protocol.Tcp)
         && !(existingRule.access == Access.Allow)
         && !(existingRule.direction == Direction.Inbound))
    && !(!(eqFold (ptrDeref existingRule.sourcePortRange) "*")
         && !(eqFold (ptrDeref existingRule.sourceAddress) "*")
         && !(eqFold (ptrDeref existingRule.destinationAddress) "*"))

/-- spec.go:82-89, the deletion test of the second loop: an observed rule is
dropped when its name is absent from newAnnotation (the names of the desired
rules, recorded by the first loop) and present in LastAppliedSecurityRules. -/
def nsgRuleDeleted (s : NSGSpec) (oldRule : SecurityRule) : Bool :=
  !((s.securityRules.map SpecSecurityRule.name).contains (ptrDeref oldRule.name))
  && s.lastAppliedSecurityRules.contains (ptrDeref oldRule.name)

/-- spec.go:73-80, first loop: the SDK conversions of the desired rules that
fail ruleExists against the observed rules, in desired order. -/
def nsgAdded (s : NSGSpec) (existingNSG : SecurityGroup) : List SecurityRule :=
  (s.securityRules.map SecurityRuleToSDK).filter
    (fun sdkRule => !ruleExists existingNSG.securityRules sdkRule)

/-- spec.go:82-93, second loop: the observed rules that are not dropped as
deleted, in observed order. -/
def nsgKept (s : NSGSpec) (existingNSG : SecurityGroup) : List SecurityRule :=
  existingNSG.securityRules.filter (fun oldRule => !nsgRuleDeleted s oldRule)

/-- The update flag of spec.go:71-93: set when some desired rule fails
ruleExists, or some observed rule is dropped as deleted. -/
def nsgUpdate (s : NSGSpec) (existingNSG : SecurityGroup) : Bool :=
  (s.securityRules.map SecurityRuleToSDK).any
      (fun sdkRule => !ruleExists existingNSG.securityRules sdkRule)
  || existingNSG.securityRules.any (fun oldRule => nsgRuleDeleted s oldRule)

/-- NSGSpec.Parameters (spec.go:57-119).  The existing argument is typed, so
the type-assertion error branch of the Go code is unrepresentable and the
result is just the optional payload (nil payload = no-op).  With an observed
group, the payload rules are the failing desired conversions followed by the
kept observed rules, the etag is the observed etag, and nil is returned when
no update is needed; with no observed group, a full creation payload is built
from the desired spec. -/
def NSGSpec.Parameters (s : NSGSpec) (existing : Option SecurityGroup) : Option SecurityGroup :=
  match existing with
  | some existingNSG =>
      if nsgUpdate s existingNSG then
        some { location := some s.location
               securityRules := nsgAdded s existingNSG ++ nsgKept s existingNSG
               etag := existingNSG.etag
               tags := buildTags s.clusterName s.name s.additionalTags }
      else none
  | none =>
      some { location := some s.location
             securityRules := s.securityRules.map SecurityRuleToSDK
             etag := none
             tags := buildTags s.clusterName s.name s.additionalTags }

/-- Reconciliation errors surfaced by the virtual-machine Parameters:
vmDeleted is azure.VMDeletedError carrying the provider ID; invalidSpec is
the terminal (non-requeued) invalid-spec reconcile error; transient covers
retryable errors, never produced by Parameters. -/
inductive VMError where
  | vmDeleted (providerID : String)
  | invalidSpec (msg : String)
  | transient (msg : String)
deriving DecidableEq, Repr

/-- Terminal (non-retryable) errors: vmDeleted and invalidSpec are terminal,
transient errors are not. -/
def VMError.isTerminal : VMError → Bool
  | VMError.vmDeleted _ => true
  | VMError.invalidSpec _ => true
  | VMError.transient _ => false

/-- resourceskus.SKU capability set, embedded as name-value pairs. -/
structure SKU where
  name : Option String
  capabilities : List (String × String)
deriving DecidableEq, Repr

/-- Modelled from the spec: resourceskus.SKU.HasCapability is not under src/.
A capability is supported when an entry with that name carries the value
True (resourceskus.CapabilitySupported). -/
def SKU.HasCapability (sku : SKU) (cap : String) : Bool :=
  sku.capabilities.any (fun c => c.1 == cap && c.2 == "True")

/-- infrav1.SecurityProfile, restricted to the encryption-at-host request. -/
structure SecurityProfile where
  encryptionAtHost : Option Bool
deriving DecidableEq, Repr

/-- compute.VirtualMachine creation payload, restricted to the fields the
claims consult. -/
structure VirtualMachine where
  name : String
  vmSize : String
deriving DecidableEq, Repr

/-- VMSpec (azure/services/virtualmachines), restricted to the fields the
claims consult. -/
structure VMSpec where
  name : String
  providerID : String
  size : String
  securityProfile : Option SecurityProfile
  sku : SKU
deriving DecidableEq, Repr

/-- Modelled from the spec: VMSpec.Parameters is not under src/ (only its
test file is).  Per the spec and the test expectations: with an observed VM
the result is nil with no error (VMs are not updated in place); with no
observed VM and a non-empty provider ID the VM was deleted out of band, so no
payload is built and azure.VMDeletedError carrying that provider ID is
returned; with no observed VM, encryption at host requested, and a SKU whose
capability set lacks EncryptionAtHostSupported, a terminal invalid-spec error
naming the capability and the VM type is returned; otherwise a creation
payload is built.  The result mirrors the Go pair (payload, error). -/
def VMSpec.Parameters (s : VMSpec) (existing : Option VirtualMachine) :
    Option VirtualMachine × Option VMError :=
  match existing with
  | some _ => (none, none)
  | none =>
      if s.providerID ≠ "" then
        (none, some (VMError.vmDeleted s.providerID))
      else if ((s.securityProfile.bind SecurityProfile.encryptionAtHost).getD false)
              && !(s.sku.HasCapability "EncryptionAtHostSupported") then
        (none, some (VMError.invalidSpec
          (String.append "encryption at host is not supported for VM type " s.size)))
      else
        (some { name := s.name, vmSize := s.size }, none)

/-- compute.OrchestrationMode restricted to the two values the scale-set
code distinguishes (Uniform and Flexible). -/
inductive OrchestrationMode where
  | Uniform
  | Flexible
deriving DecidableEq, Repr

/-- ScaleSetSpec (scalesets package, bundled after the mock client in
azure/services/virtualmachines/mock_virtualmachines/client_mock.go),
restricted to the fields read by the capacity/surge logic of
existingParameters: Capacity, MaxSurge, HasReplicasExternallyManaged,
ShouldPatchCustomData and OrchestrationMode. -/
structure ScaleSetSpec where
  capacity : Int
  maxSurge : Int
  hasReplicasExternallyManaged : Bool
  shouldPatchCustomData : Bool
  orchestrationMode : OrchestrationMode
deriving DecidableEq, Repr

/-- Lines 329-333 of the scalesets bundle: updated starts true and, unless
the orchestration mode is Flexible, becomes the result of
HasEnoughLatestModelOrNotMixedModel on the converted existing scale set.
That method lives on azure.VMSS, outside this source fragment, so its result
is taken as an argument. -/
def ScaleSetSpec.surgeUpdated (s : ScaleSetSpec)
    (hasEnoughLatestModelOrNotMixedModel : Bool) : Bool :=
  if s.orchestrationMode == OrchestrationMode.Flexible then true
  else hasEnoughLatestModelOrNotMixedModel

/-- Lines 334-338 of the scalesets bundle, together with the base capacity
set at line 396: the capacity existingParameters leaves in vmss.Sku.Capacity.
It starts as s.Capacity and is raised to s.Capacity + s.MaxSurge when
MaxSurge is positive, the update has model changes or the fleet is not
updated, and replicas are not externally managed.  hasModelChanges is the
result of hasModelModifyingDifferences, which delegates to converters and
azure.VMSS code outside this fragment, so it is taken as an argument. -/
def ScaleSetSpec.surgeCapacity (s : ScaleSetSpec)
    (hasModelChanges updated : Bool) : Int :=
  if 0 < s.maxSurge && (hasModelChanges || !updated)
      && !s.hasReplicasExternallyManaged then
    s.capacity + s.maxSurge
  else
    s.capacity

/-- Lines 307-348 of the scalesets bundle, restricted to the capacity and
no-op decision of existingParameters: the new capacity is surgeCapacity with
updated as computed by surgeUpdated; when the new capacity does not exceed
the observed capacity, there are no model changes, and no custom-data patch
is requested, the update is skipped (nil payload); otherwise the payload
carries the new capacity. -/
def ScaleSetSpec.existingParametersCapacity (s : ScaleSetSpec)
    (hasModelChanges hasEnoughLatestModelOrNotMixedModel : Bool)
    (existingCapacity : Int) : Option Int :=
  let updated := s.surgeUpdated hasEnoughLatestModelOrNotMixedModel
  let newCapacity := s.surgeCapacity hasModelChanges updated
  if newCapacity ≤ existingCapacity && !hasModelChanges
      && !s.shouldPatchCustomData then
    none
  else
    some newCapacity

/-
Helper lemmas shared by the claim theorems.
-/

theorem eqFold_refl (a : String) : eqFold a a = true := by
  simp [eqFold]

theorem ptrDeref_sdk_name (d : SpecSecurityRule) :
    ptrDeref (SecurityRuleToSDK d).name = d.name := rfl

theorem nsg_parameters_none_of (s : NSGSpec) (g : SecurityGroup)
    (h : nsgUpdate s g = false) :
    NSGSpec.Parameters s (some g) = none := by
  simp [NSGSpec.Parameters, h]

theorem nsg_parameters_some_of (s : NSGSpec) (g : SecurityGroup)
    (h : nsgUpdate s g = true) :
    NSGSpec.Parameters s (some g) =
      some { location := some s.location
             securityRules := nsgAdded s g ++ nsgKept s g
             etag := g.etag
             tags := buildTags s.clusterName s.name s.additionalTags } := by
  simp [NSGSpec.Parameters, h]

theorem nsg_parameters_some_inv (s : NSGSpec) (g : SecurityGroup) (p : SecurityGroup)
    (h : NSGSpec.Parameters s (some g) = some p) :
    p = { location := some s.location
          securityRules := nsgAdded s g ++ nsgKept s g
          etag := g.etag
          tags := buildTags s.clusterName s.name s.additionalTags } := by
  by_cases hu : nsgUpdate s g = true
  · rw [nsg_parameters_some_of s g hu] at h
    exact (Option.some.inj h).symm
  · rw [nsg_parameters_none_of s g (Bool.not_eq_true _ ▸ hu)] at h
    cases h

theorem nsg_parameters_create (s : NSGSpec) :
    NSGSpec.Parameters s none =
      some { location := some s.location
             securityRules := s.securityRules.map SecurityRuleToSDK
             etag := none
             tags := buildTags s.clusterName s.name s.additionalTags } := rfl

theorem nsgUpdate_eq_false (s : NSGSpec) (g : SecurityGroup)
    (hA : ∀ r ∈ s.securityRules, ruleExists g.securityRules (SecurityRuleToSDK r) = true)
    (hB : ∀ o ∈ g.securityRules, nsgRuleDeleted s o = false) :
    nsgUpdate s g = false := by
  unfold nsgUpdate
  rw [Bool.or_eq_false_iff]
  constructor
  · rw [List.any_eq_false]
    rintro x hx
    rcases List.mem_map.mp hx with ⟨r, hr, rfl⟩
    simp [hA r hr]
  · rw [List.any_eq_false]
    intro o ho
    simp [hB o ho]

theorem ruleExists_self (rules : List SecurityRule) (r : SecurityRule)
    (hr : r ∈ rules)
    (hacc : r.protocol = Protocol.Tcp ∨ r.access = Access.Allow ∨ r.direction = Direction.Inbound)
    (hw : ptrDeref r.sourcePortRange = "*" ∨ ptrDeref r.sourceAddress = "*"
          ∨ ptrDeref r.destinationAddress = "*") :
    ruleExists rules r = true := by
  unfold ruleExists
  rw [List.any_eq_true]
  refine ⟨r, hr, ?_⟩
  have h3 : (!(!(r.protocol == Protocol.Tcp)
      && !(r.access == Access.Allow)
      && !(r.direction == Direction.Inbound))) = true := by
    rcases hacc with h | h | h <;> simp [h]
  have h4 : (!(!(eqFold (ptrDeref r.sourcePortRange) "*")
      && !(eqFold (ptrDeref r.sourceAddress) "*")
      && !(eqFold (ptrDeref r.destinationAddress) "*"))) = true := by
    rcases hw with h | h | h <;> simp [h, eqFold_refl]
  simp [eqFold_refl, h3, h4]

/-
Concrete fixtures, mirroring the fixtures of spec_test.go.
-/

/-- The allow_ssh fixture rule of spec_test.go. -/
def sshRule : SpecSecurityRule :=
  { name := "allow_ssh", description := "Allow SSH", priority := 2200,
    protocol := Protocol.Tcp, direction := Direction.Inbound,
    source := some "*", sourcePorts := some "*",
    destination := some "*", destinationPorts := some "22" }

/-- The other_rule fixture rule of spec_test.go. -/
def otherRule : SpecSecurityRule :=
  { name := "other_rule", description := "Test Rule", priority := 500,
    protocol := Protocol.Tcp, direction := Direction.Inbound,
    source := some "*", sourcePorts := some "*",
    destination := some "*", destinationPorts := some "80" }

/-- The custom_rule fixture rule of spec_test.go. -/
def customRule : SpecSecurityRule :=
  { name := "custom_rule", description := "Test Rule", priority := 501,
    protocol := Protocol.Tcp, direction := Direction.Outbound,
    source := some "*", sourcePorts := some "*",
    destination := some "*", destinationPorts := some "80" }

/-- A rule with fully concrete (non-wildcard) source and destination: a Tcp
inbound rule from one address block and port to one address, a shape the
wildcard arm of ruleExists never accepts. -/
def narrowRule : SpecSecurityRule :=
  { name := "narrow_rule", description := "Narrow", priority := 300,
    protocol := Protocol.Tcp, direction := Direction.Inbound,
    source := some "10.0.0.0/8", sourcePorts := some "1000",
    destination := some "10.0.0.1/32", destinationPorts := some "443" }

/-
Claim theorems.
-/

/-- C4: with no observed group, Parameters returns a full creation payload
built purely from the desired spec: the rules are the SDK conversions of the
desired rules in order, the location is the desired location, the etag is
nil, and the tags are built from the cluster name, owned lifecycle, resource
name and additional tags; no error path is taken. -/
theorem nsg_creation_payload (s : NSGSpec) :
    NSGSpec.Parameters s none =
      some { location := some s.location
             securityRules := s.securityRules.map SecurityRuleToSDK
             etag := none
             tags := buildTags s.clusterName s.name s.additionalTags } := rfl

/-- C4 witness: the creation payload at a concrete spec. -/
theorem nsg_creation_payload_witness :
    NSGSpec.Parameters
      { name := "test-nsg", securityRules := [sshRule, otherRule],
        location := "test-location", clusterName := "my-cluster",
        resourceGroup := "test-group", additionalTags := [],
        lastAppliedSecurityRules := [] } none =
      some { location := some "test-location"
             securityRules := [SecurityRuleToSDK sshRule, SecurityRuleToSDK otherRule]
             etag := none
             tags := buildTags "my-cluster" "test-nsg" [] } :=
  nsg_creation_payload
    { name := "test-nsg", securityRules := [sshRule, otherRule],
      location := "test-location", clusterName := "my-cluster",
      resourceGroup := "test-group", additionalTags := [],
      lastAppliedSecurityRules := [] }

/-- C10: every non-nil update payload carries the observed group's etag
verbatim, and the creation payload (nil observed state) carries a nil etag. -/
theorem nsg_etag_propagation (s : NSGSpec) (g : SecurityGroup) (p : SecurityGroup) :
    (NSGSpec.Parameters s (some g) = some p → p.etag = g.etag)
    ∧ (NSGSpec.Parameters s none = some p → p.etag = none) := by
  constructor
  · intro h
    rw [nsg_parameters_some_inv s g p h]
  · intro h
    rw [nsg_parameters_create s] at h
    rw [← Option.some.inj h]

/-- The concrete spec used for the etag-propagation witness: one desired
rule, observed group with no rules. -/
def etagSpec : NSGSpec :=
  { name := "test-nsg", securityRules := [sshRule], location := "loc",
    clusterName := "my-cluster", resourceGroup := "test-group",
    additionalTags := [], lastAppliedSecurityRules := [] }

/-- The observed group of the etag-propagation witness. -/
def etagGroup : SecurityGroup :=
  { location := some "loc", securityRules := [], etag := some "fake-etag",
    tags := [] }

/-- The update payload Parameters computes for etagSpec and etagGroup. -/
def etagPayload : SecurityGroup :=
  { location := some "loc", securityRules := [SecurityRuleToSDK sshRule],
    etag := some "fake-etag", tags := buildTags "my-cluster" "test-nsg" [] }

/-- C10 witness: at a concrete input the update payload carries the observed
etag. -/
theorem nsg_etag_propagation_witness : etagPayload.etag = etagGroup.etag :=
  (nsg_etag_propagation etagSpec etagGroup etagPayload).1 (by decide)

/-- C2: an observed rule whose name is not tracked in
LastAppliedSecurityRules is externally owned and is contained unchanged in
every non-nil update payload, regardless of the desired rules. -/
theorem nsg_foreign_rule_preserved (s : NSGSpec) (g : SecurityGroup)
    (r : SecurityRule) (p : SecurityGroup)
    (hmem : r ∈ g.securityRules)
    (hforeign : s.lastAppliedSecurityRules.contains (ptrDeref r.name) = false)
    (hres : NSGSpec.Parameters s (some g) = some p) :
    r ∈ p.securityRules := by
  rw [nsg_parameters_some_inv s g p hres]
  refine List.mem_append.mpr (Or.inr (List.mem_filter.mpr ⟨hmem, ?_⟩))
  have hdel : nsgRuleDeleted s r = false := by
    unfold nsgRuleDeleted
    rw [hforeign, Bool.and_false]
  rw [hdel]
  rfl

/-- The concrete spec of the foreign-rule witness: desires only allow_ssh,
tracks nothing. -/
def foreignSpec : NSGSpec :=
  { name := "test-nsg", securityRules := [sshRule], location := "loc",
    clusterName := "my-cluster", resourceGroup := "test-group",
    additionalTags := [], lastAppliedSecurityRules := [] }

/-- The observed group of the foreign-rule witness: holds only the untracked
custom_rule. -/
def foreignGroup : SecurityGroup :=
  { location := some "loc",
    securityRules := [SecurityRuleToSDK customRule],
    etag := some "fake-etag", tags := [] }

/-- The update payload Parameters computes for foreignSpec and foreignGroup:
the missing allow_ssh is added and custom_rule is preserved. -/
def foreignPayload : SecurityGroup :=
  { location := some "loc",
    securityRules := [SecurityRuleToSDK sshRule, SecurityRuleToSDK customRule],
    etag := some "fake-etag", tags := buildTags "my-cluster" "test-nsg" [] }

/-- C2 witness: the untracked custom_rule is preserved in the concrete
update payload. -/
theorem nsg_foreign_rule_preserved_witness :
    SecurityRuleToSDK customRule ∈ foreignPayload.securityRules :=
  nsg_foreign_rule_preserved foreignSpec foreignGroup
    (SecurityRuleToSDK customRule) foreignPayload
    (by decide) (by decide) (by decide)

/-- C3: an observed rule that is tracked in LastAppliedSecurityRules and
whose name is absent from the desired rules is retracted: Parameters returns
a non-nil update payload (its absence alone forces the update) and no rule
of that name appears in the payload. -/
theorem nsg_tracked_rule_retracted (s : NSGSpec) (g : SecurityGroup)
    (o : SecurityRule)
    (hmem : o ∈ g.securityRules)
    (htracked : s.lastAppliedSecurityRules.contains (ptrDeref o.name) = true)
    (habsent : (s.securityRules.map SpecSecurityRule.name).contains (ptrDeref o.name) = false) :
    ∃ p, NSGSpec.Parameters s (some g) = some p
      ∧ ∀ r ∈ p.securityRules, ptrDeref r.name ≠ ptrDeref o.name := by
  have hdel : nsgRuleDeleted s o = true := by
    unfold nsgRuleDeleted
    rw [htracked, habsent]
    rfl
  have hupd : nsgUpdate s g = true := by
    unfold nsgUpdate
    rw [Bool.or_eq_true]
    exact Or.inr (List.any_eq_true.mpr ⟨o, hmem, hdel⟩)
  refine ⟨_, nsg_parameters_some_of s g hupd, ?_⟩
  intro r hr heq
  rcases List.mem_append.mp hr with hadd | hkept
  · rcases List.mem_filter.mp hadd with ⟨hmm, _⟩
    rcases List.mem_map.mp hmm with ⟨d, hd, rfl⟩
    have hin : (s.securityRules.map SpecSecurityRule.name).contains (ptrDeref o.name) = true := by
      rw [← heq, ptrDeref_sdk_name]
      exact List.elem_eq_true_of_mem (List.mem_map.mpr ⟨d, hd, rfl⟩)
    rw [habsent] at hin
    cases hin
  · rcases List.mem_filter.mp hkept with ⟨_, hnotdel⟩
    have hdelr : nsgRuleDeleted s r = true := by
      unfold nsgRuleDeleted
      rw [heq, htracked, habsent]
      rfl
    rw [hdelr] at hnotdel
    cases hnotdel

/-- The concrete spec of the retraction witness: desires allow_ssh and
custom_rule, tracks those two and the now-dropped other_rule. -/
def retractSpec : NSGSpec :=
  { name := "test-nsg", securityRules := [sshRule, customRule],
    location := "loc", clusterName := "my-cluster",
    resourceGroup := "test-group", additionalTags := [],
    lastAppliedSecurityRules := ["allow_ssh", "custom_rule", "other_rule"] }

/-- The observed group of the retraction witness: still holds other_rule. -/
def retractGroup : SecurityGroup :=
  { location := some "loc",
    securityRules := [SecurityRuleToSDK sshRule, SecurityRuleToSDK customRule,
                      SecurityRuleToSDK otherRule],
    etag := some "fake-etag", tags := [] }

/-- C3 witness: the tracked, no-longer-desired other_rule forces a non-nil
payload that carries no rule of that name. -/
theorem nsg_tracked_rule_retracted_witness :
    ∃ p, NSGSpec.Parameters retractSpec (some retractGroup) = some p
      ∧ ∀ r ∈ p.securityRules,
          ptrDeref r.name ≠ ptrDeref (SecurityRuleToSDK otherRule).name :=
  nsg_tracked_rule_retracted retractSpec retractGroup (SecurityRuleToSDK otherRule)
    (by decide) (by decide) (by decide)

/-- Bool helper for the third and fourth arms of ruleExists: the negated
three-way conjunction of negations is true exactly when some conjunct holds. -/
theorem not_and3_eq_true_iff (a b c : Bool) :
    (!((!a) && (!b) && (!c))) = true ↔ (a = true ∨ b = true ∨ c = true) := by
  cases a <;> cases b <;> cases c <;> simp

/-- C1 (amended): with a non-nil observed group, if no tracked rule name is
missing from the desired names, then Parameters returns nil whenever every
desired rule passes ruleExists against the observed rules; in particular it
returns nil when the observed rules are a permutation of the SDK conversions
of the desired rules and every desired rule carries a wildcard in its source
ports, source, or destination (the shapes ruleExists can accept). -/
theorem nsg_noop_short_circuit (s : NSGSpec) (g : SecurityGroup)
    (hB : ∀ o ∈ g.securityRules,
        s.lastAppliedSecurityRules.contains (ptrDeref o.name) = true →
        (s.securityRules.map SpecSecurityRule.name).contains (ptrDeref o.name) = true) :
    ((∀ r ∈ s.securityRules, ruleExists g.securityRules (SecurityRuleToSDK r) = true) →
        NSGSpec.Parameters s (some g) = none)
    ∧ ((g.securityRules.Perm (s.securityRules.map SecurityRuleToSDK)
        ∧ ∀ r ∈ s.securityRules,
            ptrDeref r.sourcePorts = "*" ∨ ptrDeref r.source = "*"
              ∨ ptrDeref r.destination = "*")
      → NSGSpec.Parameters s (some g) = none) := by
  have hdelB : ∀ o ∈ g.securityRules, nsgRuleDeleted s o = false := by
    intro o ho
    unfold nsgRuleDeleted
    cases hc : s.lastAppliedSecurityRules.contains (ptrDeref o.name) with
    | false => rw [Bool.and_false]
    | true => rw [hB o ho hc]; rfl
  constructor
  · intro hA
    exact nsg_parameters_none_of s g (nsgUpdate_eq_false s g hA hdelB)
  · rintro ⟨hperm, hw⟩
    refine nsg_parameters_none_of s g (nsgUpdate_eq_false s g ?_ hdelB)
    intro r hr
    apply ruleExists_self
    · exact hperm.mem_iff.mpr (List.mem_map.mpr ⟨r, hr, rfl⟩)
    · exact Or.inr (Or.inl rfl)
    · rcases hw r hr with h | h | h
      · exact Or.inl h
      · exact Or.inr (Or.inl h)
      · exact Or.inr (Or.inr h)

/-- The concrete no-op counterexample spec: desires exactly narrowRule and
tracks nothing. -/
def noopSpec : NSGSpec :=
  { name := "test-nsg", securityRules := [narrowRule], location := "loc",
    clusterName := "my-cluster", resourceGroup := "test-group",
    additionalTags := [], lastAppliedSecurityRules := [] }

/-- The observed group of the no-op counterexample: exactly the SDK
conversion of narrowRule, so observed and desired have identical content. -/
def noopGroup : SecurityGroup :=
  { location := some "loc", securityRules := [SecurityRuleToSDK narrowRule],
    etag := some "fake-etag", tags := [] }

/-- C1 counterexample: the desired rules are a permutation (here equal lists)
of the observed rules with identical content and nothing is tracked, yet
Parameters returns a non-nil update payload, because ruleExists rejects a
rule without a wildcard in source ports, source address or destination
address even when an identical observed rule exists. -/
theorem nsg_noop_permutation_counterexample :
    noopGroup.securityRules = noopSpec.securityRules.map SecurityRuleToSDK
    ∧ noopSpec.lastAppliedSecurityRules = []
    ∧ NSGSpec.Parameters noopSpec (some noopGroup) ≠ none := by
  refine ⟨rfl, rfl, fun h => ?_⟩
  have hs : (NSGSpec.Parameters noopSpec (some noopGroup)).isSome = true := by decide
  rw [h] at hs
  cases hs

/-- C1 witness: a concrete no-op: desired is the ssh rule, observed is its
conversion, the rule is tracked, and Parameters returns nil. -/
theorem nsg_noop_short_circuit_witness :
    NSGSpec.Parameters
      { name := "test-nsg", securityRules := [sshRule], location := "loc",
        clusterName := "my-cluster", resourceGroup := "test-group",
        additionalTags := [], lastAppliedSecurityRules := ["allow_ssh"] }
      (some { location := some "loc",
              securityRules := [SecurityRuleToSDK sshRule],
              etag := some "fake-etag", tags := [] }) = none :=
  (nsg_noop_short_circuit
    { name := "test-nsg", securityRules := [sshRule], location := "loc",
      clusterName := "my-cluster", resourceGroup := "test-group",
      additionalTags := [], lastAppliedSecurityRules := ["allow_ssh"] }
    { location := some "loc", securityRules := [SecurityRuleToSDK sshRule],
      etag := some "fake-etag", tags := [] }
    (by decide)).2 ⟨List.Perm.refl _, by decide⟩

/-- The desired other_rule with a modified destination port, for the
replacement claim. -/
def modifiedOtherRule : SpecSecurityRule :=
  { otherRule with destinationPorts := some "8080" }

/-- The concrete spec of the replacement check: desires the modified
other_rule and tracks other_rule. -/
def dupSpec : NSGSpec :=
  { name := "test-nsg", securityRules := [modifiedOtherRule],
    location := "loc", clusterName := "my-cluster",
    resourceGroup := "test-group", additionalTags := [],
    lastAppliedSecurityRules := ["other_rule"] }

/-- The observed group of the replacement check: holds the original
other_rule. -/
def dupGroup : SecurityGroup :=
  { location := some "loc", securityRules := [SecurityRuleToSDK otherRule],
    etag := some "fake-etag", tags := [] }

/-- C5 counterexample: the desired rule differs from the observed rule of
the same name, and the update payload contains both versions side by side:
the observed version is kept, not replaced, although the two rules carry the
same name. -/
theorem nsg_duplicate_name_counterexample :
    NSGSpec.Parameters dupSpec (some dupGroup) =
      some { location := some "loc"
             securityRules := [SecurityRuleToSDK modifiedOtherRule,
                               SecurityRuleToSDK otherRule]
             etag := some "fake-etag"
             tags := buildTags "my-cluster" "test-nsg" [] }
    ∧ (SecurityRuleToSDK modifiedOtherRule).name = (SecurityRuleToSDK otherRule).name
    ∧ SecurityRuleToSDK modifiedOtherRule ≠ SecurityRuleToSDK otherRule := by
  refine ⟨by decide, rfl, by decide⟩

/-- C5 (amended): when a desired rule fails ruleExists against the observed
rules and an observed rule bears the same name, the returned payload is
non-nil and contains the desired version of the rule, but the observed
version is also retained (the payload can therefore hold two rules with the
same name). -/
theorem nsg_modified_rule_added_and_kept (s : NSGSpec) (g : SecurityGroup)
    (d : SpecSecurityRule) (o : SecurityRule)
    (hd : d ∈ s.securityRules) (ho : o ∈ g.securityRules)
    (hname : ptrDeref o.name = d.name)
    (hdiff : ruleExists g.securityRules (SecurityRuleToSDK d) = false) :
    ∃ p, NSGSpec.Parameters s (some g) = some p
      ∧ SecurityRuleToSDK d ∈ p.securityRules ∧ o ∈ p.securityRules := by
  have hmm : SecurityRuleToSDK d ∈ s.securityRules.map SecurityRuleToSDK :=
    List.mem_map.mpr ⟨d, hd, rfl⟩
  have hpred : (!ruleExists g.securityRules (SecurityRuleToSDK d)) = true := by
    rw [hdiff]; rfl
  have hupd : nsgUpdate s g = true := by
    unfold nsgUpdate
    rw [Bool.or_eq_true]
    exact Or.inl (List.any_eq_true.mpr ⟨SecurityRuleToSDK d, hmm, hpred⟩)
  refine ⟨_, nsg_parameters_some_of s g hupd, ?_, ?_⟩
  · exact List.mem_append.mpr (Or.inl (List.mem_filter.mpr ⟨hmm, hpred⟩))
  · refine List.mem_append.mpr (Or.inr (List.mem_filter.mpr ⟨ho, ?_⟩))
    have hc : (s.securityRules.map SpecSecurityRule.name).contains (ptrDeref o.name) = true := by
      rw [hname]
      exact List.elem_eq_true_of_mem (List.mem_map.mpr ⟨d, hd, rfl⟩)
    have hdel : nsgRuleDeleted s o = false := by
      unfold nsgRuleDeleted
      rw [hc]
      rfl
    rw [hdel]
    rfl

/-- C5 witness: at the concrete replacement input the payload holds the
desired version and the retained observed version. -/
theorem nsg_modified_rule_added_and_kept_witness :
    ∃ p, NSGSpec.Parameters dupSpec (some dupGroup) = some p
      ∧ SecurityRuleToSDK modifiedOtherRule ∈ p.securityRules
      ∧ SecurityRuleToSDK otherRule ∈ p.securityRules :=
  nsg_modified_rule_added_and_kept dupSpec dupGroup modifiedOtherRule
    (SecurityRuleToSDK otherRule)
    (by decide) (by decide) (by decide) (by decide)

/-- The existing rule of the ruleExists counterexample: Tcp, Allow, Inbound,
wildcard source, destination port 22. -/
def wideExistingRule : SecurityRule :=
  { name := some "rule_a", description := none, protocol := Protocol.Tcp,
    access := Access.Allow, direction := Direction.Inbound,
    priority := some 100, sourcePortRange := some "*",
    sourceAddress := some "*", destinationPortRange := some "22",
    destinationAddress := some "*", etag := some "etag-a", id := some "id-a" }

/-- The candidate rule of the ruleExists counterexample: same name and
destination port range, but different protocol, access decision, direction
and addresses. -/
def mismatchedCandidate : SecurityRule :=
  { name := some "rule_a", description := none, protocol := Protocol.Udp,
    access := Access.Deny, direction := Direction.Outbound,
    priority := some 100, sourcePortRange := some "9999",
    sourceAddress := some "10.0.0.0/8", destinationPortRange := some "22",
    destinationAddress := some "10.1.1.1/32", etag := none, id := none }

/-- C6 counterexample: ruleExists judges a candidate present although it
differs from the matching observed rule in protocol, access decision and
direction — those fields of the candidate are never compared. -/
theorem ruleExists_ignores_candidate_fields_counterexample :
    ruleExists [wideExistingRule] mismatchedCandidate = true
    ∧ wideExistingRule.protocol ≠ mismatchedCandidate.protocol
    ∧ wideExistingRule.access ≠ mismatchedCandidate.access
    ∧ wideExistingRule.direction ≠ mismatchedCandidate.direction := by
  decide

/-- C6 (amended): ruleExists decides presence exactly when some observed
rule matches the candidate case-insensitively on name and destination port
range, and that observed rule itself has protocol Tcp or access Allow or
direction Inbound, and itself carries a wildcard in one of source port
range, source address, destination address; the candidate's protocol,
access, direction, addresses and ports beyond the above play no role, and
provider-filled fields (etags, IDs) of either rule are ignored. -/
theorem ruleExists_characterization (rules : List SecurityRule) (rule : SecurityRule) :
    (ruleExists rules rule = true ↔
      ∃ er ∈ rules,
        eqFold (ptrDeref er.name) (ptrDeref rule.name) = true
        ∧ eqFold (ptrDeref er.destinationPortRange) (ptrDeref rule.destinationPortRange) = true
        ∧ (er.protocol = Protocol.Tcp ∨ er.access = Access.Allow
           ∨ er.direction = Direction.Inbound)
        ∧ (eqFold (ptrDeref er.sourcePortRange) "*" = true
           ∨ eqFold (ptrDeref er.sourceAddress) "*" = true
           ∨ eqFold (ptrDeref er.destinationAddress) "*" = true))
    ∧ (∀ e i, ruleExists rules { rule with etag := e, id := i } = ruleExists rules rule) := by
  constructor
  · unfold ruleExists
    rw [List.any_eq_true]
    constructor
    · rintro ⟨er, her, hb⟩
      simp only [Bool.and_eq_true] at hb
      obtain ⟨⟨⟨h1, h2⟩, h3⟩, h4⟩ := hb
      rw [not_and3_eq_true_iff] at h3 h4
      refine ⟨er, her, h1, h2, ?_, h4⟩
      rcases h3 with h | h | h
      · exact Or.inl (by rwa [beq_iff_eq] at h)
      · exact Or.inr (Or.inl (by rwa [beq_iff_eq] at h))
      · exact Or.inr (Or.inr (by rwa [beq_iff_eq] at h))
    · rintro ⟨er, her, h1, h2, h3, h4⟩
      refine ⟨er, her, ?_⟩
      simp only [Bool.and_eq_true]
      refine ⟨⟨⟨h1, h2⟩, ?_⟩, (not_and3_eq_true_iff _ _ _).mpr h4⟩
      rw [not_and3_eq_true_iff]
      rcases h3 with h | h | h
      · exact Or.inl (beq_iff_eq.mpr h)
      · exact Or.inr (Or.inl (beq_iff_eq.mpr h))
      · exact Or.inr (Or.inr (beq_iff_eq.mpr h))
  · intro e i
    rfl

/-- C7: a VM spec with a non-empty provider ID seen with a nil observed
state was deleted out of band: Parameters returns a nil payload (the VM is
never silently recreated) together with the terminal VMDeletedError carrying
that provider ID. -/
theorem vm_deleted_out_of_band (s : VMSpec) (h : s.providerID ≠ "") :
    VMSpec.Parameters s none = (none, some (VMError.vmDeleted s.providerID))
    ∧ (VMError.vmDeleted s.providerID).isTerminal = true := by
  refine ⟨?_, rfl⟩
  simp [VMSpec.Parameters, h]

/-- C7 witness: at the test input the deleted-out-of-band error carries the
provider ID fake/vm/id. -/
theorem vm_deleted_out_of_band_witness :
    VMSpec.Parameters
      { name := "my-vm", providerID := "fake/vm/id", size := "Standard_D2v3",
        securityProfile := none,
        sku := { name := some "Standard_D2v3",
                 capabilities := [("vCPUs", "2"), ("MemoryGB", "4")] } } none =
      (none, some (VMError.vmDeleted "fake/vm/id"))
    ∧ (VMError.vmDeleted "fake/vm/id").isTerminal = true :=
  vm_deleted_out_of_band
    { name := "my-vm", providerID := "fake/vm/id", size := "Standard_D2v3",
      securityProfile := none,
      sku := { name := some "Standard_D2v3",
               capabilities := [("vCPUs", "2"), ("MemoryGB", "4")] } }
    (by decide)

/-- C8: a fresh VM spec (nil observed state, empty provider ID) that requests
encryption at host while the SKU capability set does not support it yields a
nil payload and a terminal invalid-spec error whose message names the
capability and the VM type, and which is never a transient error. -/
theorem vm_encryption_at_host_unsupported (s : VMSpec)
    (h0 : s.providerID = "")
    (h1 : (s.securityProfile.bind SecurityProfile.encryptionAtHost).getD false = true)
    (h2 : s.sku.HasCapability "EncryptionAtHostSupported" = false) :
    VMSpec.Parameters s none =
      (none, some (VMError.invalidSpec
        (String.append "encryption at host is not supported for VM type " s.size)))
    ∧ (VMError.invalidSpec
        (String.append "encryption at host is not supported for VM type " s.size)).isTerminal = true
    ∧ ∀ m, VMError.invalidSpec
        (String.append "encryption at host is not supported for VM type " s.size) ≠
          VMError.transient m := by
  refine ⟨?_, rfl, fun m hm => VMError.noConfusion hm⟩
  simp [VMSpec.Parameters, h0, h1, h2]

/-- C8 witness: the test input (encryption at host requested, SKU without the
EncryptionAtHostSupported capability) yields the terminal error naming the
capability and the Standard_D2v3 VM type. -/
theorem vm_encryption_at_host_unsupported_witness :
    VMSpec.Parameters
      { name := "my-vm", providerID := "", size := "Standard_D2v3",
        securityProfile := some { encryptionAtHost := some true },
        sku := { name := some "Standard_D2v3",
                 capabilities := [("vCPUs", "2"), ("MemoryGB", "4")] } } none =
      (none, some (VMError.invalidSpec
        (String.append "encryption at host is not supported for VM type " "Standard_D2v3")))
    ∧ (VMError.invalidSpec
        (String.append "encryption at host is not supported for VM type " "Standard_D2v3")).isTerminal = true
    ∧ ∀ m, VMError.invalidSpec
        (String.append "encryption at host is not supported for VM type " "Standard_D2v3") ≠
          VMError.transient m :=
  vm_encryption_at_host_unsupported
    { name := "my-vm", providerID := "", size := "Standard_D2v3",
      securityProfile := some { encryptionAtHost := some true },
      sku := { name := some "Standard_D2v3",
               capabilities := [("vCPUs", "2"), ("MemoryGB", "4")] } }
    rfl (by decide) (by decide)

/-- C9: the target capacity computed by the scale-set surge logic never
falls below the desired size s.Capacity: it equals the desired size when
replicas are externally managed, or MaxSurge is zero, or there is neither a
model change nor convergence drift (the fleet counts as updated); it equals
desired plus MaxSurge in the remaining (surging) case; and every capacity
that reaches a non-nil update payload is at least the desired size. -/
theorem scaleset_surge_capacity_bounds (s : ScaleSetSpec)
    (hasModelChanges updated : Bool) :
    s.capacity ≤ s.surgeCapacity hasModelChanges updated
    ∧ ((s.hasReplicasExternallyManaged = true ∨ s.maxSurge = 0
        ∨ (hasModelChanges = false ∧ updated = true)) →
        s.surgeCapacity hasModelChanges updated = s.capacity)
    ∧ (s.hasReplicasExternallyManaged = false → 0 < s.maxSurge →
        (hasModelChanges = true ∨ updated = false) →
        s.surgeCapacity hasModelChanges updated = s.capacity + s.maxSurge)
    ∧ (∀ hasLatest existingCapacity c,
        s.existingParametersCapacity hasModelChanges hasLatest existingCapacity = some c →
        s.capacity ≤ c) := by
  have hcore : ∀ u : Bool, s.capacity ≤ s.surgeCapacity hasModelChanges u := by
    intro u
    unfold ScaleSetSpec.surgeCapacity
    by_cases hms : 0 < s.maxSurge <;>
      rcases u with _ | _ <;> rcases hasModelChanges with _ | _ <;>
      rcases hext : s.hasReplicasExternallyManaged with _ | _ <;>
      simp [hms, hext] <;> omega
  refine ⟨hcore updated, ?_, ?_, ?_⟩
  · intro h
    unfold ScaleSetSpec.surgeCapacity
    rcases h with h | h | ⟨h1, h2⟩
    · simp [h]
    · simp [h]
    · simp [h1, h2]
  · intro hext hms h
    unfold ScaleSetSpec.surgeCapacity
    rcases h with h | h <;> simp [hext, hms, h]
  · intro hasLatest existingCapacity c hc
    unfold ScaleSetSpec.existingParametersCapacity at hc
    dsimp only at hc
    split at hc
    · cases hc
    · rw [← Option.some.inj hc]
      exact hcore (s.surgeUpdated hasLatest)

/-- C9 witness: a Uniform scale set with desired capacity 5, surge 2, model
changes, not externally managed, targets 5 + 2. -/
theorem scaleset_surge_capacity_bounds_witness :
    ScaleSetSpec.surgeCapacity
      { capacity := 5, maxSurge := 2, hasReplicasExternallyManaged := false,
        shouldPatchCustomData := false,
        orchestrationMode := OrchestrationMode.Uniform } true true = 5 + 2 :=
  (scaleset_surge_capacity_bounds
    { capacity := 5, maxSurge := 2, hasReplicasExternallyManaged := false,
      shouldPatchCustomData := false,
      orchestrationMode := OrchestrationMode.Uniform } true true).2.2.1
    rfl (by decide) (Or.inl rfl)
